import Mathlib

/-!
Verification of the gremlin core: procedure builder (`router/builder.ts`),
execution engine (`executor.ts`) and HTTP dispatch layer (`handler.ts`).

Modelling conventions:
* JavaScript strings are modelled as `List Char` (`JStr`); string literals are
  injected with `js`.
* JavaScript values are modelled by the inductive `JSValue`.  JavaScript
  objects are ordered association lists; property access is last-wins
  (`lookupEntry`), matching object semantics, and the object spread
  `\x7b...a, ...b\x7d` is modelled by list append, which is observationally
  equal for property access.
* Middleware and handler functions are modelled after asynchronous resolution:
  `resolveResult` in the source awaits promises and runs effect values, so a
  middleware/handler is a function from its arguments to `Except Thrown v`,
  the resolved value or the error it threw (a rejected promise, a failed
  effect, or a synchronous throw).
* JavaScript objects are open records: reading an absent property yields
  `undefined`.  The built procedure `_def` therefore carries both the singular
  `middleware` property that `builder.ts` writes and the plural `middlewares`
  property that `executor.ts` reads, each as an `Option`, with `none`
  modelling an absent property.  Iterating `undefined` with `for..of` throws
  a `TypeError` in JavaScript, modelled as a thrown foreign value.
-/

namespace Gremlin

/-- Model of JavaScript strings as lists of characters. -/
abbrev JStr := List Char

/-- Injection of Lean string literals into the model. -/
def js (s : String) : JStr := s.data

/-- Model of the JavaScript values the core manipulates (JSON values plus
`undefined`). -/
inductive JSValue where
  | null
  | undefined
  | bool (b : Bool)
  | num (n : Int)
  | str (s : JStr)
  | obj (fields : List (JStr × JSValue))
  | arr (elems : List JSValue)

/-- JavaScript `typeof`: note `typeof null` and `typeof array` are both
`"object"`. -/
def jsTypeof : JSValue → JStr
  | .null => js "object"
  | .undefined => js "undefined"
  | .bool _ => js "boolean"
  | .num _ => js "number"
  | .str _ => js "string"
  | .obj _ => js "object"
  | .arr _ => js "object"

/-- JavaScript falsiness (`!value`): `null`, `undefined`, `false`, `0` and
the empty string are falsy, every object and array is truthy. -/
def isFalsy : JSValue → Bool
  | .null => true
  | .undefined => true
  | .bool b => !b
  | .num n => n == 0
  | .str s => s.isEmpty
  | .obj _ => false
  | .arr _ => false

/-- Last-wins lookup in an ordered association list, modelling JavaScript
object property access (later duplicate keys shadow earlier ones). -/
def lookupEntry {α : Type} (entries : List (JStr × α)) (k : JStr) : Option α :=
  ((entries.filter (fun p => p.1 == k)).getLast?).map Prod.snd

/-- Property access `v[k]`, yielding `undefined` when the property is absent.
The core only applies it to values that passed a `typeof === "object"` check,
so the primitive fallback is never reached on the modelled code paths. -/
def getField (v : JSValue) (k : JStr) : JSValue :=
  match v with
  | .obj fields => (lookupEntry fields k).getD .undefined
  | _ => .undefined

/-- Error codes of the closed taxonomy (`errors.ts`). -/
inductive ErrorCode where
  | NOT_FOUND
  | UNAUTHORIZED
  | FORBIDDEN
  | VALIDATION
  | CONFLICT
  | INTERNAL
deriving DecidableEq

/-- Printed name of an error code, as serialized into error bodies. -/
def codeName : ErrorCode → JStr
  | .NOT_FOUND => js "NOT_FOUND"
  | .UNAUTHORIZED => js "UNAUTHORIZED"
  | .FORBIDDEN => js "FORBIDDEN"
  | .VALIDATION => js "VALIDATION"
  | .CONFLICT => js "CONFLICT"
  | .INTERNAL => js "INTERNAL"

/-- Domain error type (`errors.ts`): a code, a message and an optional opaque
cause. -/
structure GremlinError where
  code : ErrorCode
  message : JStr
  cause : Option JSValue := none

/-- A thrown JavaScript value: either a `GremlinError` or any other value. -/
inductive Thrown where
  | gremlin (e : GremlinError)
  | foreign (v : JSValue)

/-- Result of `schema.safeParse(input)` (the zod contract in `executor.ts`). -/
inductive SafeParseResult where
  | success (data : JSValue)
  | failure (error : JSValue)

/-- Value stored in `_def.input`: either it exposes a `safeParse` function or
it is some other value (the executor checks with `isSafeParser`). -/
inductive SchemaValue where
  | withParse (safeParse : JSValue → SafeParseResult)
  | withoutParse (v : JSValue)

/-- A middleware function after result resolution: input to resolved context
fragment or thrown value. -/
abbrev Middleware := JSValue → Except Thrown JSValue

/-- The merged context is a JavaScript object (ordered association list). -/
abbrev Context := List (JStr × JSValue)

/-- A handler function after result resolution: input and context to resolved
output or thrown value. -/
abbrev Handler := JSValue → Context → Except Thrown JSValue

/-- Builder state (`createBuilderInternal`'s `_def` parameter in
`builder.ts`): an optional schema and a SINGLE optional middleware slot. -/
structure BuilderDef where
  input : Option SchemaValue := none
  middleware : Option Middleware := none

/-- Definition record of a built procedure, as an open JavaScript object.
`builder.ts` writes the singular `middleware` key; `executor.ts` reads the
plural `middlewares` key; `none` models an absent property (`undefined`). -/
structure ProcedureDef where
  input : Option SchemaValue
  middleware : Option Middleware
  middlewares : Option (List Middleware)
  handler : Handler

/-- A built procedure (the `$types` field is type-level only and is omitted,
as is the always-`undefined` `output` field). -/
structure Procedure where
  _def : ProcedureDef

/-- An immutable builder value (`createBuilderInternal` closes over `_def`). -/
structure ProcedureBuilder where
  _def : BuilderDef

/-- Method `input(schema)` of `createBuilderInternal`:
returns a new builder with the schema stored. -/
def ProcedureBuilder.input (b : ProcedureBuilder) (schema : SchemaValue) : ProcedureBuilder :=
  ⟨{ b._def with input := some schema }⟩

/-- Method `use(middleware)` of `createBuilderInternal`: returns a new builder
with `middleware: middleware` — the singular slot is OVERWRITTEN, nothing is
appended. -/
def ProcedureBuilder.use (b : ProcedureBuilder) (middleware : Middleware) : ProcedureBuilder :=
  ⟨{ b._def with middleware := some middleware }⟩

/-- Method `handler(handlerFn)` of `createBuilderInternal`: builds the final
procedure, carrying over `input` and the singular `middleware` slot.  No
`middlewares` property is ever written, so it is absent (`none`). -/
def ProcedureBuilder.handler (b : ProcedureBuilder) (handlerFn : Handler) : Procedure :=
  ⟨{ input := b._def.input
     middleware := b._def.middleware
     middlewares := none
     handler := handlerFn }⟩

/-- The exported `procedure` entry point: `createBuilderInternal()` with an
empty `_def`. -/
def procedure : ProcedureBuilder := ⟨{}⟩

/-- Ambient per-request data handed to the executor (`executor.ts`).  The
`request` field holds the request object as an opaque value: the core stores
it into the context but never inspects it. -/
structure ExecutionContext where
  request : JSValue
  session : JSValue
  headers : JSValue

/-- Spread of an array inside an object literal contributes its index keys
(`typeof array === "object"`, so `mergeMiddlewareContext` does not reject
arrays). -/
def arraySpreadFields (elems : List JSValue) : Context :=
  elems.enum.map (fun p => ((Nat.repr p.1).data, p.2))

/-- Function `mergeMiddlewareContext` of `executor.ts`: `undefined`/`null`
fragments leave the context unchanged, non-object fragments raise an
`INTERNAL` domain error, object fragments are shallow-merged with override. -/
def mergeMiddlewareContext (currentContext : Context) (middlewareContext : JSValue) :
    Except Thrown Context :=
  match middlewareContext with
  | .undefined => .ok currentContext
  | .null => .ok currentContext
  | .obj fields => .ok (currentContext ++ fields)
  | .arr elems => .ok (currentContext ++ arraySpreadFields elems)
  | v => .error (.gremlin ⟨.INTERNAL, js "Middleware must return an object context.", some v⟩)

/-- Step 1 of `executeProcedure`: if an input schema is present it must expose
`safeParse` (else `INTERNAL`), and a parse failure throws `VALIDATION` with
the validator's error detail as cause; with no schema the raw input passes
through unchanged. -/
def validateInput (schema : Option SchemaValue) (input : JSValue) : Except Thrown JSValue :=
  match schema with
  | none => .ok input
  | some (.withoutParse v) =>
    .error (.gremlin ⟨.INTERNAL, js "Procedure input schema must provide safeParse.", some v⟩)
  | some (.withParse safeParse) =>
    match safeParse input with
    | .failure err => .error (.gremlin ⟨.VALIDATION, js "Input validation failed.", some err⟩)
    | .success data => .ok data

/-- Seed context of the middleware loop: the request, session and headers of
the execution context. -/
def seedContext (context : ExecutionContext) : Context :=
  [(js "request", context.request), (js "session", context.session),
    (js "headers", context.headers)]

/-- The `for (const middleware of procedure._def.middlewares)` loop of
`executeProcedure`: each middleware is invoked with the validated input, its
resolved result is merged, and any thrown value aborts the loop unchanged. -/
def runMiddlewareLoop (input : JSValue) : List Middleware → Context → Except Thrown Context
  | [], mergedContext => .ok mergedContext
  | middleware :: rest, mergedContext =>
    match middleware input with
    | .error e => .error e
    | .ok resolved =>
      match mergeMiddlewareContext mergedContext resolved with
      | .error e => .error e
      | .ok next => runMiddlewareLoop input rest next

/-- The `TypeError` JavaScript throws when `for..of` iterates `undefined`
(the absent `middlewares` property). -/
def middlewaresTypeError : JSValue :=
  .str (js "TypeError: procedure._def.middlewares is not iterable")

/-- Function `executeProcedure` of `executor.ts`: validate the input, iterate
`_def.middlewares` (absent property makes `for..of` throw a `TypeError`),
then invoke the handler with the validated input and merged context. -/
def executeProcedure (p : Procedure) (input : JSValue) (context : ExecutionContext) :
    Except Thrown JSValue :=
  match validateInput p._def.input input with
  | .error e => .error e
  | .ok validatedInput =>
    match p._def.middlewares with
    | none => .error (.foreign middlewaresTypeError)
    | some middlewares =>
      match runMiddlewareLoop validatedInput middlewares (seedContext context) with
      | .error e => .error e
      | .ok mergedContext => p._def.handler validatedInput mergedContext

/-! ### HTTP handler (`handler.ts`) -/

/-- Default base path of the HTTP handler. -/
def DEFAULT_BASE_PATH : JStr := js "/api/gremlin"

/-- Deterministic error-code to HTTP-status mapping (`ERROR_STATUS_MAP`). -/
def ERROR_STATUS_MAP : ErrorCode → Nat
  | .NOT_FOUND => 404
  | .UNAUTHORIZED => 401
  | .FORBIDDEN => 403
  | .VALIDATION => 400
  | .CONFLICT => 409
  | .INTERNAL => 500

/-- Inbound HTTP request: method, URL path, headers, the request object as an
opaque value (only stored into the execution context), and the result of
`request.json()` — `Except.error` carries the thrown JSON parse error. -/
structure HttpRequest where
  method : JStr
  pathname : JStr
  headers : JSValue := .undefined
  self : JSValue := .undefined
  body : Except JSValue JSValue := .ok .undefined

/-- Handler configuration (`GremlinConfig`).  The content adapter is an
external collaborator never called by the dispatch logic, and the optional
`onError` callback must not affect the response; both are omitted from the
model.  `getSession` models `auth.getSession`, which never throws by
contract. -/
structure GremlinConfig where
  basePath : Option JStr := none
  router : Option (List (JStr × Procedure)) := none
  getSession : HttpRequest → JSValue := fun _ => .null

/-- An HTTP response: status plus the value serialized as the JSON body
(headers are fixed to `content-type: application/json` and are omitted). -/
structure HttpResponse where
  status : Nat
  body : JSValue

/-- Function `normalizePath`: paths of length at most one are kept, otherwise
a run of trailing slashes is stripped (`path.replace(/\/+$/, "")`). -/
def normalizePath (path : JStr) : JStr :=
  if path.length ≤ 1 then path
  else if path.getLast? = some '/' then path.rdropWhile (· = '/') else path

/-- Function `normalizeBasePath`: ensure a leading slash, then normalize. -/
def normalizeBasePath (basePath : JStr) : JStr :=
  let withLeadingSlash := if basePath.head? = some '/' then basePath else '/' :: basePath
  normalizePath withLeadingSlash

/-- Function `resolveRelativePath`: the path relative to the base path, or
`none` when the request path does not fall under the base path. -/
def resolveRelativePath (pathname : JStr) (basePath : JStr) : Option JStr :=
  let normalizedPath := normalizePath pathname
  let normalizedBasePath := normalizePath basePath
  if normalizedPath = normalizedBasePath then some (js "/")
  else if (normalizedBasePath ++ js "/").isPrefixOf normalizedPath then
    some (normalizedPath.drop normalizedBasePath.length)
  else none

/-- Function `normalizeError`: a `GremlinError` passes through, any other
thrown value is wrapped as `INTERNAL`. -/
def normalizeError : Thrown → GremlinError
  | .gremlin e => e
  | .foreign v => ⟨.INTERNAL, js "Internal server error.", some v⟩

/-- Function `errorStatus`: look the code up in the status map. -/
def errorStatus (e : GremlinError) : Nat := ERROR_STATUS_MAP e.code

/-- Error response body, always of shape
`\x7b error: \x7b code, message \x7d \x7d`. -/
def errorBody (e : GremlinError) : JSValue :=
  .obj [(js "error", .obj [(js "code", .str (codeName e.code)),
    (js "message", .str e.message)])]

/-- Function `parseRpcRequestBody`: reject invalid JSON, non-object bodies
(truthiness plus `typeof` check) and missing/non-string/empty `procedure`
fields; return the procedure name and the optional `input` field. -/
def parseRpcRequestBody (request : HttpRequest) : Except Thrown (JStr × JSValue) :=
  match request.body with
  | .error e => .error (.gremlin ⟨.VALIDATION, js "Request body must be valid JSON.", some e⟩)
  | .ok parsedBody =>
    if isFalsy parsedBody || jsTypeof parsedBody != js "object" then
      .error (.gremlin ⟨.VALIDATION, js "RPC body must be an object.", none⟩)
    else
      match getField parsedBody (js "procedure") with
      | .str s =>
        if s.isEmpty then
          .error (.gremlin ⟨.VALIDATION, js "RPC body must include a procedure.", none⟩)
        else .ok (s, getField parsedBody (js "input"))
      | _ => .error (.gremlin ⟨.VALIDATION, js "RPC body must include a procedure.", none⟩)

/-- Body of the request function returned by `createHttpHandler`, up to the
single catch boundary: route resolution, the `GET /session` route, the
`POST /rpc` route (parse body, look the procedure up, resolve the session,
execute), and the catch-all `404`. -/
def dispatchRequest (config : GremlinConfig) (request : HttpRequest) :
    Except Thrown HttpResponse :=
  let basePath := normalizeBasePath (config.basePath.getD DEFAULT_BASE_PATH)
  let router := config.router.getD []
  match resolveRelativePath request.pathname basePath with
  | none => .error (.gremlin ⟨.NOT_FOUND, js "Route not found: " ++ request.pathname, none⟩)
  | some relativePath =>
    if request.method = js "GET" ∧ relativePath = js "/session" then
      .ok ⟨200, config.getSession request⟩
    else if request.method = js "POST" ∧ relativePath = js "/rpc" then
      match parseRpcRequestBody request with
      | .error e => .error e
      | .ok (procedureName, input) =>
        match lookupEntry router procedureName with
        | none =>
          .error (.gremlin ⟨.NOT_FOUND, js "Procedure not found: " ++ procedureName, none⟩)
        | some foundProcedure =>
          let session := config.getSession request
          match executeProcedure foundProcedure input
              ⟨request.self, session, request.headers⟩ with
          | .error e => .error e
          | .ok result => .ok ⟨200, result⟩
    else
      .error (.gremlin ⟨.NOT_FOUND,
        js "Route not found: " ++ request.method ++ js " " ++ relativePath, none⟩)

/-- The request function returned by `createHttpHandler`: dispatch, and at
the single catch boundary normalize the thrown value and serialize the error
envelope with the mapped status. -/
def handleRequest (config : GremlinConfig) (request : HttpRequest) : HttpResponse :=
  match dispatchRequest config request with
  | .ok response => response
  | .error e =>
    let gremlinError := normalizeError e
    ⟨errorStatus gremlinError, errorBody gremlinError⟩

/-! ### Concrete fixtures (mirroring the repository's own tests) -/

/-- Parse function of the zod schema `z.object(\x7b value: z.number() \x7d)`:
succeed with the parsed `\x7b value \x7d` object exactly when the `value`
property is a number. -/
def doubleParse : JSValue → SafeParseResult := fun v =>
  match getField v (js "value") with
  | .num n => .success (.obj [(js "value", .num n)])
  | _ => .failure (.str (js "Expected number at value"))

/-- The schema object wrapping `doubleParse`. -/
def doubleSchema : SchemaValue := .withParse doubleParse

/-- Handler of the `double` procedure:
`(\x7b input \x7d) => (\x7b doubled: input.value * 2 \x7d)`. -/
def doubleHandlerFn : Handler := fun input _ =>
  match getField input (js "value") with
  | .num n => .ok (.obj [(js "doubled", .num (n * 2))])
  | _ => .ok .undefined

/-- The `double` procedure exactly as the spec's end-to-end scenario builds
it: `procedure.input(schema).handler(fn)` through the builder. -/
def doubleProcedure : Procedure := (procedure.input doubleSchema).handler doubleHandlerFn

/-- The `double` procedure as the repository's `types.ts`, tests and ADR-015
intend it: the same definition with the middleware sequence stored as the
empty `middlewares` array. -/
def fixedDoubleProcedure : Procedure :=
  ⟨{ input := some doubleSchema, middleware := none, middlewares := some [],
     handler := doubleHandlerFn }⟩

/-- A session value returned by the test session provider. -/
def testSession : JSValue :=
  .obj [(js "user", .null), (js "expires", .str (js "2099-01-01T00:00:00.000Z"))]

/-- Configuration with the default base path, a given router and a session
provider that always resolves `testSession`. -/
def testConfig (router : List (JStr × Procedure)) : GremlinConfig :=
  { router := some router, getSession := fun _ => testSession }

/-- A `POST <defaultBasePath>/rpc` request with the given parsed JSON body. -/
def rpcRequest (bodyVal : JSValue) : HttpRequest :=
  { method := js "POST", pathname := js "/api/gremlin/rpc", body := .ok bodyVal }

/-- The end-to-end scenario request:
body `\x7b "procedure": "double", "input": \x7b "value": 8 \x7d \x7d`. -/
def doubleRequest : HttpRequest :=
  rpcRequest (.obj [(js "procedure", .str (js "double")),
    (js "input", .obj [(js "value", .num 8)])])

/-- A registered procedure with an empty middleware sequence whose handler
throws `GremlinError(code, msg)`. -/
def failProcedure (code : ErrorCode) (msg : JStr) : Procedure :=
  ⟨{ input := none, middleware := none, middlewares := some [],
     handler := fun _ _ => .error (.gremlin ⟨code, msg, none⟩) }⟩

/-- RPC request invoking the `fail` procedure with no input. -/
def failRequest : HttpRequest :=
  rpcRequest (.obj [(js "procedure", .str (js "fail"))])

/-- Middleware `() => (\x7b v: 1 \x7d)`. -/
def mwV1 : Middleware := fun _ => .ok (.obj [(js "v", .num 1)])

/-- Middleware `() => (\x7b v: 2 \x7d)`. -/
def mwV2 : Middleware := fun _ => .ok (.obj [(js "v", .num 2)])

/-! ### Helper lemmas -/

/-- Reduction of the dispatch of a `POST <defaultBasePath>/rpc` request under
a `testConfig` router: the concrete route resolution computes away, leaving
body parsing, router lookup and execution. -/
theorem dispatch_rpc (r : List (JStr × Procedure)) (bodyVal : JSValue) :
    dispatchRequest (testConfig r) (rpcRequest bodyVal) =
      (match parseRpcRequestBody (rpcRequest bodyVal) with
      | .error e => .error e
      | .ok (procedureName, input) =>
        match lookupEntry r procedureName with
        | none =>
          .error (.gremlin ⟨.NOT_FOUND, js "Procedure not found: " ++ procedureName, none⟩)
        | some foundProcedure =>
          match executeProcedure foundProcedure input
              ⟨.undefined, testSession, .undefined⟩ with
          | .error e => .error e
          | .ok result => .ok ⟨200, result⟩) := rfl

/-- A string RPC body is rejected as a non-object. -/
theorem parse_str_body (s : JStr) :
    parseRpcRequestBody (rpcRequest (.str s)) =
      .error (.gremlin ⟨.VALIDATION, js "RPC body must be an object.", none⟩) := by
  cases s <;> rfl

/-- A numeric RPC body is rejected as a non-object. -/
theorem parse_num_body (n : Int) :
    parseRpcRequestBody (rpcRequest (.num n)) =
      .error (.gremlin ⟨.VALIDATION, js "RPC body must be an object.", none⟩) := by
  cases n with
  | ofNat m => cases m <;> rfl
  | negSucc m => rfl

/-- A boolean RPC body is rejected as a non-object. -/
theorem parse_bool_body (b : Bool) :
    parseRpcRequestBody (rpcRequest (.bool b)) =
      .error (.gremlin ⟨.VALIDATION, js "RPC body must be an object.", none⟩) := by
  cases b <;> rfl

/-- An object body without a `procedure` property is rejected. -/
theorem parse_obj_missing (fields : List (JStr × JSValue))
    (h : lookupEntry fields (js "procedure") = none) :
    parseRpcRequestBody (rpcRequest (.obj fields)) =
      .error (.gremlin ⟨.VALIDATION, js "RPC body must include a procedure.", none⟩) := by
  simp [parseRpcRequestBody, rpcRequest, getField, isFalsy, jsTypeof, h]

/-- An object body whose `procedure` property is not a string is rejected. -/
theorem parse_obj_nonstring (fields : List (JStr × JSValue)) (v : JSValue)
    (h : lookupEntry fields (js "procedure") = some v) (hv : ∀ s : JStr, v ≠ .str s) :
    parseRpcRequestBody (rpcRequest (.obj fields)) =
      .error (.gremlin ⟨.VALIDATION, js "RPC body must include a procedure.", none⟩) := by
  cases v with
  | str s => exact absurd rfl (hv s)
  | null => simp [parseRpcRequestBody, rpcRequest, getField, isFalsy, jsTypeof, h]
  | undefined => simp [parseRpcRequestBody, rpcRequest, getField, isFalsy, jsTypeof, h]
  | bool b => simp [parseRpcRequestBody, rpcRequest, getField, isFalsy, jsTypeof, h]
  | num n => simp [parseRpcRequestBody, rpcRequest, getField, isFalsy, jsTypeof, h]
  | obj f => simp [parseRpcRequestBody, rpcRequest, getField, isFalsy, jsTypeof, h]
  | arr a => simp [parseRpcRequestBody, rpcRequest, getField, isFalsy, jsTypeof, h]

/-- An object body whose `procedure` property is the empty string is
rejected, even though it is a string. -/
theorem parse_obj_empty_string (fields : List (JStr × JSValue))
    (h : lookupEntry fields (js "procedure") = some (.str [])) :
    parseRpcRequestBody (rpcRequest (.obj fields)) =
      .error (.gremlin ⟨.VALIDATION, js "RPC body must include a procedure.", none⟩) := by
  simp [parseRpcRequestBody, rpcRequest, getField, isFalsy, jsTypeof, h]

/-- An object body with a non-empty string `procedure` parses successfully. -/
theorem parse_obj_name (fields : List (JStr × JSValue)) (c : Char) (cs : JStr)
    (h : lookupEntry fields (js "procedure") = some (.str (c :: cs))) :
    parseRpcRequestBody (rpcRequest (.obj fields)) =
      .ok (c :: cs, getField (.obj fields) (js "input")) := by
  simp [parseRpcRequestBody, rpcRequest, getField, isFalsy, jsTypeof, h]

/-- Splitting the middleware loop at an append: the suffix runs on the
context produced by the prefix, and a prefix error short-circuits. -/
theorem runMiddlewareLoop_append (input : JSValue) (ms₁ ms₂ : List Middleware) (ctx : Context) :
    runMiddlewareLoop input (ms₁ ++ ms₂) ctx =
      (match runMiddlewareLoop input ms₁ ctx with
      | .error e => .error e
      | .ok next => runMiddlewareLoop input ms₂ next) := by
  induction ms₁ generalizing ctx with
  | nil => rfl
  | cons m rest ih =>
    simp only [List.cons_append, runMiddlewareLoop]
    cases m input with
    | error e => rfl
    | ok resolved =>
      show (match mergeMiddlewareContext ctx resolved with
        | Except.error e => Except.error e
        | Except.ok next => runMiddlewareLoop input (rest ++ ms₂) next) =
        (match (match mergeMiddlewareContext ctx resolved with
          | Except.error e => Except.error e
          | Except.ok next => runMiddlewareLoop input rest next) with
        | Except.error e => Except.error e
        | Except.ok next => runMiddlewareLoop input ms₂ next)
      cases mergeMiddlewareContext ctx resolved with
      | error e => rfl
      | ok next => exact ih next

/-- A list is its slash-stripped front followed by its stripped tail. -/
theorem rdrop_append_rtake (p : Char → Bool) (l : JStr) :
    l.rdropWhile p ++ l.rtakeWhile p = l := by
  unfold List.rdropWhile List.rtakeWhile
  rw [← List.reverse_append, List.takeWhile_append_dropWhile, List.reverse_reverse]

/-- Decomposition of `normalizePath`: either the path is already normalized,
or it is the normalized path followed by a slash (and possibly more). -/
theorem normalizePath_split (p : JStr) :
    p = normalizePath p ∨ (normalizePath p ++ ['/']) <+: p := by
  unfold normalizePath
  by_cases h1 : p.length ≤ 1
  · rw [if_pos h1]; exact Or.inl rfl
  · rw [if_neg h1]
    by_cases h2 : p.getLast? = some '/'
    · rw [if_pos h2]
      have hsplit := rdrop_append_rtake (· = '/') p
      cases htcase : p.rtakeWhile (· = '/') with
      | nil =>
        left
        rw [htcase] at hsplit
        simpa using hsplit.symm
      | cons c cs =>
        right
        have hc : c = '/' := by
          have hmem : c ∈ p.rtakeWhile (· = '/') := by
            rw [htcase]; exact List.mem_cons_self c cs
          simpa using List.mem_rtakeWhile_imp hmem
        rw [htcase] at hsplit
        rw [hc] at hsplit
        refine ⟨cs, ?_⟩
        rw [List.append_assoc, List.singleton_append]
        exact hsplit
    · rw [if_neg h2]; exact Or.inl rfl

/-- The normalized path is a prefix of the original path. -/
theorem normalizePath_isPrefix (p : JStr) : normalizePath p <+: p := by
  rcases normalizePath_split p with h | h
  · rw [← h]
  · exact (List.prefix_append _ _).trans h

/-- Normalizing a path is idempotent. -/
theorem normalizePath_idem (p : JStr) : normalizePath (normalizePath p) = normalizePath p := by
  by_cases h1 : p.length ≤ 1
  · have h : normalizePath p = p := by unfold normalizePath; rw [if_pos h1]
    rw [h]
    exact h
  · by_cases h2 : p.getLast? = some '/'
    · have hq : normalizePath p = p.rdropWhile (· = '/') := by
        unfold normalizePath; rw [if_neg h1, if_pos h2]
      rw [hq]
      unfold normalizePath
      by_cases h3 : (p.rdropWhile (· = '/')).length ≤ 1
      · rw [if_pos h3]
      · rw [if_neg h3]
        by_cases h4 : (p.rdropWhile (· = '/')).getLast? = some '/'
        · exfalso
          have hqne : p.rdropWhile (· = '/') ≠ [] := by
            intro h0
            rw [h0] at h3
            simp at h3
          have hlast := List.rdropWhile_last_not (· = '/') p hqne
          rw [List.getLast?_eq_getLast _ hqne] at h4
          simp only [Option.some_inj] at h4
          simp [h4] at hlast
        · rw [if_neg h4]
    · have h : normalizePath p = p := by unfold normalizePath; rw [if_neg h1, if_neg h2]
      rw [h]
      exact h

/-- A path that is neither the (already normalized) base path nor an
extension of it under a slash does not resolve to a relative path. -/
theorem resolveRelativePath_none (pathname basePath : JStr)
    (hb : normalizePath basePath = basePath)
    (h1 : pathname ≠ basePath) (h2 : ¬ (basePath ++ ['/']) <+: pathname) :
    resolveRelativePath pathname basePath = none := by
  have hA : ¬ (normalizePath pathname = normalizePath basePath) := by
    rw [hb]
    intro hEq
    rcases normalizePath_split pathname with h | h
    · exact h1 (by rw [h, hEq])
    · rw [hEq] at h
      exact h2 h
  have hB : ¬ ((normalizePath basePath ++ js "/").isPrefixOf (normalizePath pathname) = true) := by
    rw [ List.isPrefixOf_iff_prefix]
    intro hp
    refine h2 (List.IsPrefix.trans ?_ (normalizePath_isPrefix pathname))
    rw [hb] at hp
    exact hp
  unfold resolveRelativePath
  rw [if_neg hA, if_neg hB]

/-! ### Claim theorems -/

/-- C1: the spec demands that `procedure.use(m1).use(m2).handler(fn)` carry
the middleware sequence `[m1, m2]`, and the repository's own builder test and
`types.ts` agree — but `builder.ts` stores each `use` argument in the
singular `middleware` slot, overwriting the previous one, and never writes
the `middlewares` property the executor reads: the built procedure's
`middlewares` is absent and the only retained middleware is `m2`.  This
theorem evaluates the build chain, exhibiting the code bug. -/
theorem builder_use_overwrites_and_drops_middlewares
    (m1 m2 : Middleware) (handlerFn : Handler) :
    (((procedure.use m1).use m2).handler handlerFn)._def.middlewares = none ∧
    (((procedure.use m1).use m2).handler handlerFn)._def.middleware = some m2 :=
  ⟨rfl, rfl⟩

/-- C3: on a procedure whose input validator rejects the raw input,
`executeProcedure` throws `GremlinError(VALIDATION, "Input validation
failed.")` with the validator's error detail as cause.  The result is
independent of the middleware slots and the handler (they are universally
quantified), which is how "neither any middleware step nor the handler is
ever invoked" manifests in a pure model: the validation error is produced
before either is consulted. -/
theorem executeProcedure_validation_gate
    (safeParse : JSValue → SafeParseResult) (raw err : JSValue)
    (hfail : safeParse raw = .failure err)
    (mw : Option Middleware) (mws : Option (List Middleware)) (h : Handler)
    (context : ExecutionContext) :
    executeProcedure ⟨⟨some (.withParse safeParse), mw, mws, h⟩⟩ raw context =
      .error (.gremlin ⟨.VALIDATION, js "Input validation failed.", some err⟩) := by
  simp [executeProcedure, validateInput, hfail]

/-- Witness for C3 at a concrete failing input. -/
theorem executeProcedure_validation_gate_witness :
    executeProcedure ⟨⟨some (.withParse doubleParse), none, none,
        fun _ _ => .ok .undefined⟩⟩ (.str (js "nope"))
        ⟨.undefined, .null, .undefined⟩ =
      .error (.gremlin ⟨.VALIDATION, js "Input validation failed.",
        some (.str (js "Expected number at value"))⟩) :=
  executeProcedure_validation_gate doubleParse (.str (js "nope"))
    (.str (js "Expected number at value")) rfl none none _ _

/-- C4: for every code of the closed taxonomy and every message, dispatching
`POST <basePath>/rpc` to a registered procedure with empty middleware
sequence whose handler throws `GremlinError(code, msg)` yields the mapped
status and the body `\x7b error: \x7b code, message: msg \x7d \x7d`; the map
is exactly VALIDATION 400, UNAUTHORIZED 401, FORBIDDEN 403, NOT_FOUND 404,
CONFLICT 409, INTERNAL 500. -/
theorem error_code_status_determinism (code : ErrorCode) (msg : JStr) :
    handleRequest (testConfig [(js "fail", failProcedure code msg)]) failRequest =
      ⟨ERROR_STATUS_MAP code,
        .obj [(js "error", .obj [(js "code", .str (codeName code)),
          (js "message", .str msg)])]⟩ ∧
    ERROR_STATUS_MAP .VALIDATION = 400 ∧ ERROR_STATUS_MAP .UNAUTHORIZED = 401 ∧
    ERROR_STATUS_MAP .FORBIDDEN = 403 ∧ ERROR_STATUS_MAP .NOT_FOUND = 404 ∧
    ERROR_STATUS_MAP .CONFLICT = 409 ∧ ERROR_STATUS_MAP .INTERNAL = 500 :=
  ⟨rfl, rfl, rfl, rfl, rfl, rfl, rfl⟩

/-- C6: a middleware fragment that resolves to `undefined` or `null` leaves
the accumulated context unchanged, and a fragment that resolves to a
non-object value (number, string or boolean) makes the executor throw
`GremlinError(INTERNAL, "Middleware must return an object context.")` rather
than being silently ignored — stated on `mergeMiddlewareContext` for every
accumulated context, and lifted to `executeProcedure` (a null-returning step
is observationally absent; a number-returning step aborts execution with the
INTERNAL error). -/
theorem middleware_fragment_merge_spec :
    (∀ ctx : Context, mergeMiddlewareContext ctx .undefined = .ok ctx) ∧
    (∀ ctx : Context, mergeMiddlewareContext ctx .null = .ok ctx) ∧
    (∀ (ctx : Context) (n : Int), mergeMiddlewareContext ctx (.num n) =
      .error (.gremlin ⟨.INTERNAL, js "Middleware must return an object context.",
        some (.num n)⟩)) ∧
    (∀ (ctx : Context) (s : JStr), mergeMiddlewareContext ctx (.str s) =
      .error (.gremlin ⟨.INTERNAL, js "Middleware must return an object context.",
        some (.str s)⟩)) ∧
    (∀ (ctx : Context) (b : Bool), mergeMiddlewareContext ctx (.bool b) =
      .error (.gremlin ⟨.INTERNAL, js "Middleware must return an object context.",
        some (.bool b)⟩)) ∧
    (∀ (ms : List Middleware) (h : Handler) (input : JSValue)
        (context : ExecutionContext),
      executeProcedure ⟨⟨none, none, some ((fun _ => .ok .null) :: ms), h⟩⟩ input context =
        executeProcedure ⟨⟨none, none, some ms, h⟩⟩ input context) ∧
    (∀ (h : Handler) (input : JSValue) (context : ExecutionContext) (n : Int),
      executeProcedure ⟨⟨none, none, some [fun _ => .ok (.num n)], h⟩⟩ input context =
        .error (.gremlin ⟨.INTERNAL, js "Middleware must return an object context.",
          some (.num n)⟩)) :=
  ⟨fun _ => rfl, fun _ => rfl, fun _ _ => rfl, fun _ _ => rfl, fun _ _ => rfl,
    fun _ _ _ _ => rfl, fun _ _ _ _ => rfl⟩

/-- C2: the spec's end-to-end scenario — `POST /rpc` with
`\x7b "procedure": "double", "input": \x7b "value": 8 \x7d \x7d` against the
builder-built `double` procedure — does NOT return `200` with
`\x7b doubled: 16 \x7d` on the code as written: the builder never writes the
`middlewares` property, so the executor's `for..of` throws a `TypeError`,
which the HTTP boundary normalizes to a `500 INTERNAL` response.  With the
procedure repaired to carry the intended empty `middlewares` array (second
conjunct), the scenario produces exactly the claimed response, confirming
the claim describes the intent and the builder is the slip. -/
theorem rpc_double_end_to_end :
    handleRequest (testConfig [(js "double", doubleProcedure)]) doubleRequest =
      ⟨500, .obj [(js "error", .obj [(js "code", .str (js "INTERNAL")),
        (js "message", .str (js "Internal server error."))])]⟩ ∧
    handleRequest (testConfig [(js "double", fixedDoubleProcedure)]) doubleRequest =
      ⟨200, .obj [(js "doubled", .num 16)]⟩ :=
  ⟨rfl, rfl⟩

/-- C5: executing the builder-built
`use(() => (\x7b v: 1 \x7d)).use(() => (\x7b v: 2 \x7d)).handler(fn)`
procedure never lets the handler observe any context at all: the built
`_def.middlewares` is absent, so `executeProcedure` throws a `TypeError`
for every handler, input and execution context (first conjunct).  The second
conjunct shows the intended middleware loop over the sequence `[m1, m2]`
does produce a merged context with `ctx.v === 2` (later middleware wins),
confirming the claimed merge semantics is what the executor implements once
it is given the sequence the spec and tests demand. -/
theorem context_merge_override_order :
    (∀ (handlerFn : Handler) (input : JSValue) (context : ExecutionContext),
      executeProcedure (((procedure.use mwV1).use mwV2).handler handlerFn) input context =
        .error (.foreign middlewaresTypeError)) ∧
    (∀ (input : JSValue) (context : ExecutionContext),
      (runMiddlewareLoop input [mwV1, mwV2] (seedContext context)).map
          (fun ctx => lookupEntry ctx (js "v")) = .ok (some (.num 2))) :=
  ⟨fun _ _ _ => rfl, fun _ _ => rfl⟩

/-- C7 counterexample: the empty string is a name not present in the (empty)
router, yet `POST /rpc` with `\x7b "procedure": "" \x7d` yields `400` with
code `VALIDATION` and message `RPC body must include a procedure.` — not the
`404` / `Procedure not found: ` response the claim predicts for every absent
name. -/
theorem unknown_procedure_empty_name_counterexample :
    handleRequest (testConfig []) (rpcRequest (.obj [(js "procedure", .str (js ""))])) =
      ⟨400, .obj [(js "error", .obj [(js "code", .str (js "VALIDATION")),
        (js "message", .str (js "RPC body must include a procedure."))])]⟩ ∧
    (handleRequest (testConfig [])
        (rpcRequest (.obj [(js "procedure", .str (js ""))]))).status ≠ 404 :=
  ⟨rfl, by decide⟩

/-- C7 amended: for every NON-EMPTY name not present in the configured
router, `POST <basePath>/rpc` with body `\x7b "procedure": name \x7d` yields
`404` with code `NOT_FOUND` and message exactly `Procedure not found: <name>`
(the empty string is instead rejected by body validation with `400`). -/
theorem unknown_procedure_not_found (name : JStr) (router : List (JStr × Procedure))
    (hname : name ≠ []) (hmiss : lookupEntry router name = none) :
    handleRequest (testConfig router) (rpcRequest (.obj [(js "procedure", .str name)])) =
      ⟨404, .obj [(js "error", .obj [(js "code", .str (js "NOT_FOUND")),
        (js "message", .str (js "Procedure not found: " ++ name))])]⟩ := by
  cases name with
  | nil => exact absurd rfl hname
  | cons c cs =>
    unfold handleRequest
    rw [dispatch_rpc, parse_obj_name [(js "procedure", .str (c :: cs))] c cs rfl]
    simp only [hmiss]
    rfl

/-- Witness for C7's amended claim at the spec's example name. -/
theorem unknown_procedure_not_found_witness :
    handleRequest (testConfig [])
        (rpcRequest (.obj [(js "procedure", .str (js "doesNotExist"))])) =
      ⟨404, .obj [(js "error", .obj [(js "code", .str (js "NOT_FOUND")),
        (js "message", .str (js "Procedure not found: doesNotExist"))])]⟩ :=
  unknown_procedure_not_found (js "doesNotExist") [] (by decide) rfl

/-- C10: a `POST /rpc` body that parses as JSON but is not an object with a
non-empty string `procedure` field is rejected with `400 VALIDATION`:
non-object bodies (string, number, boolean, null) with message
`RPC body must be an object.`, and object bodies whose `procedure` is
missing, non-string, or the empty string with message
`RPC body must include a procedure.`. -/
theorem rpc_body_validation :
    (∀ s : JStr, handleRequest (testConfig []) (rpcRequest (.str s)) =
      ⟨400, .obj [(js "error", .obj [(js "code", .str (js "VALIDATION")),
        (js "message", .str (js "RPC body must be an object."))])]⟩) ∧
    (∀ n : Int, handleRequest (testConfig []) (rpcRequest (.num n)) =
      ⟨400, .obj [(js "error", .obj [(js "code", .str (js "VALIDATION")),
        (js "message", .str (js "RPC body must be an object."))])]⟩) ∧
    (∀ b : Bool, handleRequest (testConfig []) (rpcRequest (.bool b)) =
      ⟨400, .obj [(js "error", .obj [(js "code", .str (js "VALIDATION")),
        (js "message", .str (js "RPC body must be an object."))])]⟩) ∧
    (handleRequest (testConfig []) (rpcRequest .null) =
      ⟨400, .obj [(js "error", .obj [(js "code", .str (js "VALIDATION")),
        (js "message", .str (js "RPC body must be an object."))])]⟩) ∧
    (∀ fields : List (JStr × JSValue), lookupEntry fields (js "procedure") = none →
      handleRequest (testConfig []) (rpcRequest (.obj fields)) =
        ⟨400, .obj [(js "error", .obj [(js "code", .str (js "VALIDATION")),
          (js "message", .str (js "RPC body must include a procedure."))])]⟩) ∧
    (∀ (fields : List (JStr × JSValue)) (v : JSValue),
      lookupEntry fields (js "procedure") = some v → (∀ s : JStr, v ≠ .str s) →
      handleRequest (testConfig []) (rpcRequest (.obj fields)) =
        ⟨400, .obj [(js "error", .obj [(js "code", .str (js "VALIDATION")),
          (js "message", .str (js "RPC body must include a procedure."))])]⟩) ∧
    (∀ fields : List (JStr × JSValue),
      lookupEntry fields (js "procedure") = some (.str []) →
      handleRequest (testConfig []) (rpcRequest (.obj fields)) =
        ⟨400, .obj [(js "error", .obj [(js "code", .str (js "VALIDATION")),
          (js "message", .str (js "RPC body must include a procedure."))])]⟩) := by
  refine ⟨fun s => ?_, fun n => ?_, fun b => ?_, ?_, fun fields h => ?_,
    fun fields v h hv => ?_, fun fields h => ?_⟩
  · unfold handleRequest; rw [dispatch_rpc, parse_str_body]; rfl
  · unfold handleRequest; rw [dispatch_rpc, parse_num_body]; rfl
  · unfold handleRequest; rw [dispatch_rpc, parse_bool_body]; rfl
  · rfl
  · unfold handleRequest; rw [dispatch_rpc, parse_obj_missing fields h]; rfl
  · unfold handleRequest; rw [dispatch_rpc, parse_obj_nonstring fields v h hv]; rfl
  · unfold handleRequest; rw [dispatch_rpc, parse_obj_empty_string fields h]; rfl

/-- Witness for C10's conditional conjuncts at concrete bodies: `procedure`
missing, numeric, and the empty string. -/
theorem rpc_body_validation_witness :
    (handleRequest (testConfig []) (rpcRequest (.obj [])) =
      ⟨400, .obj [(js "error", .obj [(js "code", .str (js "VALIDATION")),
        (js "message", .str (js "RPC body must include a procedure."))])]⟩) ∧
    (handleRequest (testConfig []) (rpcRequest (.obj [(js "procedure", .num 5)])) =
      ⟨400, .obj [(js "error", .obj [(js "code", .str (js "VALIDATION")),
        (js "message", .str (js "RPC body must include a procedure."))])]⟩) ∧
    (handleRequest (testConfig [])
        (rpcRequest (.obj [(js "procedure", .str (js ""))])) =
      ⟨400, .obj [(js "error", .obj [(js "code", .str (js "VALIDATION")),
        (js "message", .str (js "RPC body must include a procedure."))])]⟩) :=
  ⟨rpc_body_validation.2.2.2.2.1 [] rfl,
    rpc_body_validation.2.2.2.2.2.1 [(js "procedure", .num 5)] (.num 5) rfl
      (fun s h => by cases h),
    rpc_body_validation.2.2.2.2.2.2 [(js "procedure", .str (js ""))] rfl⟩

/-- C8: for a procedure whose middleware sequence is a concrete list, any
value thrown by a middleware step (first conjunct) or by the handler (second
conjunct) surfaces from `executeProcedure` as exactly that value — whether a
`GremlinError` or a foreign value, it is neither caught nor rewrapped.  The
validation step is quantified over any outcome that lets execution proceed,
so the statement covers procedures with and without input validators. -/
theorem executor_error_propagation :
    (∀ (sch : Option SchemaValue) (mwslot : Option Middleware)
        (pre rest : List Middleware) (m : Middleware) (h : Handler)
        (raw validatedInput : JSValue) (context : ExecutionContext)
        (ctxPre : Context) (e : Thrown),
      validateInput sch raw = .ok validatedInput →
      runMiddlewareLoop validatedInput pre (seedContext context) = .ok ctxPre →
      m validatedInput = .error e →
      executeProcedure ⟨⟨sch, mwslot, some (pre ++ m :: rest), h⟩⟩ raw context =
        .error e) ∧
    (∀ (sch : Option SchemaValue) (mwslot : Option Middleware)
        (ms : List Middleware) (h : Handler)
        (raw validatedInput : JSValue) (context : ExecutionContext)
        (mergedContext : Context) (e : Thrown),
      validateInput sch raw = .ok validatedInput →
      runMiddlewareLoop validatedInput ms (seedContext context) = .ok mergedContext →
      h validatedInput mergedContext = .error e →
      executeProcedure ⟨⟨sch, mwslot, some ms, h⟩⟩ raw context = .error e) := by
  constructor
  · intro sch mwslot pre rest m h raw validatedInput context ctxPre e hval hpre hm
    simp only [executeProcedure, hval]
    rw [runMiddlewareLoop_append]
    simp only [hpre, runMiddlewareLoop, hm]
  · intro sch mwslot ms h raw validatedInput context mergedContext e hval hms hh
    simp only [executeProcedure, hval, hms, hh]

/-- Witness for C8 at concrete throwing middleware and handler. -/
theorem executor_error_propagation_witness :
    executeProcedure ⟨⟨none, none,
        some [fun _ => .error (.foreign (.str (js "middleware boom")))],
        fun _ _ => .ok .undefined⟩⟩ .undefined ⟨.undefined, .null, .undefined⟩ =
      .error (.foreign (.str (js "middleware boom"))) ∧
    executeProcedure ⟨⟨none, none, some [],
        fun _ _ => .error (.gremlin ⟨.CONFLICT, js "handler boom", none⟩)⟩⟩
        .undefined ⟨.undefined, .null, .undefined⟩ =
      .error (.gremlin ⟨.CONFLICT, js "handler boom", none⟩) :=
  ⟨executor_error_propagation.1 none none [] []
      (fun _ => .error (.foreign (.str (js "middleware boom"))))
      (fun _ _ => .ok .undefined) .undefined .undefined
      ⟨.undefined, .null, .undefined⟩ _ _ rfl rfl rfl,
    executor_error_propagation.2 none none []
      (fun _ _ => .error (.gremlin ⟨.CONFLICT, js "handler boom", none⟩))
      .undefined .undefined ⟨.undefined, .null, .undefined⟩ _ _ rfl rfl rfl⟩

/-- C9: a request whose URL path is neither the normalized base path itself
nor an extension of it after a slash receives a `404` response with code
`NOT_FOUND`, for every configuration and every request method. -/
theorem route_containment_404 (config : GremlinConfig) (request : HttpRequest)
    (h1 : request.pathname ≠ normalizeBasePath (config.basePath.getD DEFAULT_BASE_PATH))
    (h2 : ¬ (normalizeBasePath (config.basePath.getD DEFAULT_BASE_PATH) ++ ['/']) <+:
      request.pathname) :
    handleRequest config request =
      ⟨404, .obj [(js "error", .obj [(js "code", .str (js "NOT_FOUND")),
        (js "message", .str (js "Route not found: " ++ request.pathname))])]⟩ := by
  have hb : normalizePath (normalizeBasePath (config.basePath.getD DEFAULT_BASE_PATH)) =
      normalizeBasePath (config.basePath.getD DEFAULT_BASE_PATH) :=
    normalizePath_idem _
  have hres := resolveRelativePath_none request.pathname
    (normalizeBasePath (config.basePath.getD DEFAULT_BASE_PATH)) hb h1 h2
  unfold handleRequest dispatchRequest
  simp only [hres]
  rfl

/-- Witness for C9 at a concrete out-of-base-path request. -/
theorem route_containment_404_witness :
    handleRequest (testConfig [])
        ⟨js "PUT", js "/other", .undefined, .undefined, .ok .undefined⟩ =
      ⟨404, .obj [(js "error", .obj [(js "code", .str (js "NOT_FOUND")),
        (js "message", .str (js "Route not found: /other"))])]⟩ :=
  route_containment_404 (testConfig [])
    ⟨js "PUT", js "/other", .undefined, .undefined, .ok .undefined⟩
    (by decide) (by decide)

end Gremlin
